import Mathlib

/-!
Verification development for the edge-quality survey application (`run.py`).

The application is a single-page stateless survey: the full session state
`{uid, step, ans}` travels in an encrypted URL query parameter, a per-user
deterministic plan assigns one image-pair variant per question, and the final
answers are appended as one row to an external sheet.

The Lean definitions below are a shallow embedding of the state, assignment,
flow and submission logic of `run.py`.  External libraries (the Fernet
authenticated cipher, Python's `json` module, Python's seeded `random`
generator, the Google-Sheets client and the rendering toolkit) are modelled by
their functional interface behaviour; everything the repository's own code
does is translated directly.
-/

namespace EQSurvey

/-- `TOTAL_QUESTIONS = 37` (run.py line 77). -/
def TOTAL_QUESTIONS : Nat := 37

/-- A JSON value, as produced by Python's `json.loads`.  Numbers are modelled
as integers (every number the application serializes is an `int`). -/
inductive JsonValue
  | null
  | bool (b : Bool)
  | num (n : Int)
  | str (s : String)
  | arr (l : List JsonValue)
  | obj (fields : List (String × JsonValue))

/-- Python truthiness (`if not state_data`, run.py line 136): `None`, `False`,
`0`, `""`, `[]` and `{}` are falsy, everything else is truthy. -/
def pyTruthy : JsonValue → Bool
  | JsonValue.null => false
  | JsonValue.bool b => b
  | JsonValue.num n => n != 0
  | JsonValue.str s => !s.isEmpty
  | JsonValue.arr l => !l.isEmpty
  | JsonValue.obj fields => !fields.isEmpty

/-- The byte string handed to / returned by the cipher: either a valid JSON
document (identified with the value it parses to) or a byte string that is not
valid JSON.  This models Python's `json.dumps` / `json.loads` pair. -/
inductive Payload
  | json (v : JsonValue)
  | notJson

/-- Model of a Fernet token (external `cryptography.fernet` library): either a
ciphertext genuinely produced under the process key, carrying its plaintext
payload, or any other string (tampered, truncated, produced under a different
key, or not a token at all), which fails authentication. -/
inductive Token
  | enc (p : Payload)
  | malformed

/-- `json.dumps`: serializing any value succeeds and yields a valid JSON
document. -/
def json_dumps (v : JsonValue) : Payload := Payload.json v

/-- `json.loads`: parsing recovers the serialized value, and fails (raises,
i.e. `none`) on a byte string that is not valid JSON. -/
def json_loads : Payload → Option JsonValue
  | Payload.json v => some v
  | Payload.notJson => none

/-- `cipher_suite.encrypt` (Fernet): authenticated encryption of a payload. -/
def cipher_encrypt (p : Payload) : Token := Token.enc p

/-- `cipher_suite.decrypt` (Fernet): returns the original payload of a token
produced under the same key, and fails (raises) on anything else. -/
def cipher_decrypt : Token → Option Payload
  | Token.enc p => some p
  | Token.malformed => none

/-- `encrypt_state` (run.py lines 83-87): dict -> JSON -> encrypt. -/
def encrypt_state (data_dict : JsonValue) : Token :=
  cipher_encrypt (json_dumps data_dict)

/-- `decrypt_state` (run.py lines 89-96): decrypt -> JSON parse, with the
`try/except` returning `None` on any failure.  The function is total: every
failure path is the `none` value, never an exception. -/
def decrypt_state (token_str : Token) : Option JsonValue :=
  match cipher_decrypt token_str with
  | some json_bytes => json_loads json_bytes
  | none => none

/-- The three module-level variables assigned by the state-initialization
block (run.py lines 147-155): `user_id`, `current_step`, `saved_answers_str`. -/
structure ModuleVars where
  user_id : String
  current_step : Int
  saved_answers_str : String
deriving DecidableEq

/-- Python dict lookup `fields[key]`, returning `none` where Python raises
`KeyError`. -/
def lookupField : List (String × JsonValue) → String → Option JsonValue
  | [], _ => none
  | (k, v) :: rest, key => if k == key then some v else lookupField rest key

/-- `state_data["..."]`: dict item access; `none` models the exception raised
on a non-dict or a missing key. -/
def jsonLookup : JsonValue → String → Option JsonValue
  | JsonValue.obj fields, key => lookupField fields key
  | _, _ => none

/-- A value used where the code needs a `str`; `none` models the type error a
non-string would eventually raise downstream (`len`, concatenation, seeding). -/
def asStr : JsonValue → Option String
  | JsonValue.str s => some s
  | _ => none

/-- Python `int(x)` (run.py line 154): an int stays itself, a bool becomes
0/1, a numeric string is parsed, anything else raises (`none`). -/
def pyToInt : JsonValue → Option Int
  | JsonValue.num n => some n
  | JsonValue.bool b => some (if b then 1 else 0)
  | JsonValue.str s => s.toInt?
  | _ => none

/-- The module-level state-initialization block (run.py lines 130-155): if the
decoded state is absent or falsy, a fresh `uid` (here the parameter
`fresh_uid`, generated by `uuid.uuid4`) starts an Intro state `(-1, "")`;
otherwise the decoded fields are used verbatim, with no validation of `step`
bounds or of the length of `ans`.  `none` models an uncaught exception (e.g. a
truthy non-dict state). -/
def initVars (decoded : Option JsonValue) (fresh_uid : String) : Option ModuleVars :=
  match decoded with
  | none => some ⟨fresh_uid, -1, ""⟩
  | some v =>
    if pyTruthy v then
      match jsonLookup v "uid", jsonLookup v "step", jsonLookup v "ans" with
      | some uval, some sval, some aval =>
        match asStr uval, pyToInt sval, asStr aval with
        | some u, some s, some a => some ⟨u, s, a⟩
        | _, _, _ => none
      | _, _, _ => none
    else some ⟨fresh_uid, -1, ""⟩

/-- Lines 129-136 of run.py: read the `q` parameter (absent = `none`), decode
it when present, then run the initialization block. -/
def processOpt (tok : Option Token) (fresh_uid : String) : Option ModuleVars :=
  initVars (tok.bind decrypt_state) fresh_uid

/-- The session-state dictionary `{"uid": ..., "step": ..., "ans": ...}` that
the application itself serializes (run.py lines 138-142, 188-192, 201-205). -/
def mkStateJson (uid : String) (step : Int) (ans : String) : JsonValue :=
  JsonValue.obj [("uid", JsonValue.str uid), ("step", JsonValue.num step), ("ans", JsonValue.str ans)]

theorem initVars_mkState (uid : String) (step : Int) (ans : String) (fresh : String) :
    initVars (some (mkStateJson uid step ans)) fresh = some ⟨uid, step, ans⟩ := rfl

/-- One candidate image pair for a question: `(gt_id, dist_a_id, dist_b_id)`
(run.py line 284). -/
abbrev Variant := String × String × String

/-- One question slot of `pairs_list.json`: a list of candidate variants,
possibly empty. -/
abbrev Slot := List Variant

/-- Model of Python's seeded `random` module (external library): `seed`
derives a generator state from a string, `randrange st n` returns the drawn
index together with the advanced state.  `random.seed` / `random.randrange`
are deterministic functions of the seed, which this interface makes explicit
by state passing. -/
structure RandGen (σ : Type) where
  seed : String → σ
  randrange : σ → Nat → Nat × σ

/-- A generator is well formed when `randrange st n` draws inside `[0, n)`,
as Python's `random.randrange` guarantees. -/
def WellFormedGen {σ : Type} (g : RandGen σ) : Prop :=
  ∀ (st : σ) (n : Nat), 0 < n → (g.randrange st n).1 < n

/-- The plan-building loop of run.py lines 164-177, over the remaining slots,
threading the generator state: a non-empty slot draws one index with
`randrange(len(pairs))` and records `(r_idx, pairs[r_idx])`; an empty slot
records `(-1, None)` and performs no draw. -/
def planLoop {σ : Type} (g : RandGen σ) : σ → List Slot → List Int × List (Option Variant)
  | _, [] => ([], [])
  | st, pairs :: rest =>
    if pairs.isEmpty then
      ((-1 : Int) :: (planLoop g st rest).1, none :: (planLoop g st rest).2)
    else
      let rp := g.randrange st pairs.length
      ((rp.1 : Int) :: (planLoop g rp.2 rest).1,
        some (pairs.getD rp.1 ("", "", "")) :: (planLoop g rp.2 rest).2)

/-- Lines 157-177 of run.py: `random.seed(user_id)` then the loop over
`range(min(len(raw_data), TOTAL_QUESTIONS))`, producing
`(survey_indices, survey_plan)`.  The computation reads nothing but
`user_id` and the static pool. -/
def computePlan {σ : Type} (g : RandGen σ) (user_id : String) (raw_data : List Slot) :
    List Int × List (Option Variant) :=
  planLoop g (g.seed user_id) (raw_data.take TOTAL_QUESTIONS)

/-- Characterization of the assignment plan following the specification's
wording (spec section 4.2): starting from the state seeded from the user id,
each slot in order either is empty — recording index `-1` and variant `null`,
consuming no randomness — or is non-empty, in which case exactly one
`randrange(len(slot))` draw is consumed, the drawn index is recorded and the
variant at that index is selected, and the remaining slots continue from the
advanced generator state. -/
inductive PlanSpec {σ : Type} (g : RandGen σ) : σ → List Slot → List Int → List (Option Variant) → Prop
  | nil (st : σ) : PlanSpec g st [] [] []
  | empty (st : σ) (slot : Slot) (rest : List Slot) (is : List Int) (ps : List (Option Variant)) :
      slot = [] → PlanSpec g st rest is ps →
      PlanSpec g st (slot :: rest) ((-1 : Int) :: is) (none :: ps)
  | draw (st : σ) (slot : Slot) (rest : List Slot) (r : Nat) (st2 : σ) (v : Variant)
      (is : List Int) (ps : List (Option Variant)) :
      slot ≠ [] → g.randrange st slot.length = (r, st2) → slot[r]? = some v →
      PlanSpec g st2 rest is ps →
      PlanSpec g st (slot :: rest) ((r : Int) :: is) (some v :: ps)

/-- The session state carried by the encrypted token. -/
structure SessionState where
  uid : String
  step : Int
  ans : String
deriving DecidableEq

/-- `next_step(choice)` (run.py lines 197-212): keep `uid`, increment `step`,
append the single choice character to `ans` (the new state is then encrypted
into the URL). -/
def next_step (s : SessionState) (choice : Char) : SessionState :=
  ⟨s.uid, s.step + 1, s.ans.push choice⟩

/-- `start_survey` (run.py lines 186-195): keep `uid`, set `step` to 0 and
reset `ans` to the empty string. -/
def start_survey (s : SessionState) : SessionState :=
  ⟨s.uid, 0, ""⟩

/-- Python list indexing `l[i]` with negative-index semantics: a negative `i`
addresses `l[len(l) + i]`; out of range (either side) raises (`none`). -/
def pyGet {α : Type} (l : List α) (i : Int) : Option α :=
  if 0 ≤ i then l[i.toNat]?
  else if 0 ≤ (l.length : Int) + i then l[((l.length : Int) + i).toNat]?
  else none

/-- What the question/terminal dispatch renders for a state. -/
inductive RenderOutcome
  | autoAdvance (next : SessionState)
  | showChoices (v : Variant)
  | terminal
deriving DecidableEq

/-- The rendering dispatch of run.py lines 277-318 for a decoded state: when
`current_step < TOTAL_QUESTIONS` the question branch reads
`survey_plan[current_step]` (Python indexing, so `none` models the
`IndexError` on an out-of-range step); a falsy entry fires `next_step("N")`
immediately, before any choice UI, and stops; a present pair renders the two
choice buttons; otherwise the terminal screen is rendered.  Note the branch on
line 277 is an `if`, not an `elif`: it also runs when `current_step == -1`. -/
def renderStep (s : SessionState) (plan : List (Option Variant)) : Option RenderOutcome :=
  if s.step < (TOTAL_QUESTIONS : Int) then
    match pyGet plan s.step with
    | none => none
    | some none => some (RenderOutcome.autoAdvance (next_step s 'N'))
    | some (some pair_ids) => some (RenderOutcome.showChoices pair_ids)
  else some RenderOutcome.terminal

/-- The transitions the program itself can fire on a rendered state, for a
fixed derived plan: the start button (rendered exactly when `step == -1`,
run.py line 248), a choice button `A`/`B` (rendered when the question branch
shows a pair), and the automatic `next_step("N")` skip. -/
inductive Transition (plan : List (Option Variant)) : SessionState → SessionState → Prop
  | start (u : String) (a : String) :
      Transition plan ⟨u, -1, a⟩ (start_survey ⟨u, -1, a⟩)
  | choose (s : SessionState) (v : Variant) (c : Char) :
      renderStep s plan = some (RenderOutcome.showChoices v) →
      c = 'A' ∨ c = 'B' →
      Transition plan s (next_step s c)
  | autoskip (s t : SessionState) :
      renderStep s plan = some (RenderOutcome.autoAdvance t) →
      Transition plan s t

/-- States reachable from a given state through the program's transitions. -/
def Reachable (plan : List (Option Variant)) (s t : SessionState) : Prop :=
  Relation.ReflTransGen (Transition plan) s t

/-- `final_answers` construction of run.py lines 222-224: `list(ans)` as
one-character strings, padded with the empty string `""` up to
`TOTAL_QUESTIONS` when shorter. -/
def padAnswers (saved_answers_str : String) : List String :=
  if (saved_answers_str.toList.map String.singleton).length < TOTAL_QUESTIONS then
    saved_answers_str.toList.map String.singleton ++
      List.replicate (TOTAL_QUESTIONS - (saved_answers_str.toList.map String.singleton).length) ""
  else saved_answers_str.toList.map String.singleton

/-- `row_data` of run.py lines 219-232: `[timestamp, user_id]` followed by
one `f"{answer}_{idx}"` entry per `zip(final_answers, survey_indices)` pair. -/
def buildRow (timestamp user_id saved_answers_str : String) (survey_indices : List Int) :
    List String :=
  [timestamp, user_id] ++
    List.zipWith (fun answer idx => answer ++ "_" ++ toString idx)
      (padAnswers saved_answers_str) survey_indices

/-- The externally observable effects of one `submit()` call. -/
structure SubmitEffect where
  appended : Option (List String)
  submitted_flag : Bool
  error_shown : Bool
  token_update : Option Token

/-- `submit()` (run.py lines 214-240): when the sheet handle is available, the
row is built and `append_row` is attempted; only on success are the
`submitted` session flag set and the success notice shown, and the
`try/except` turns an append failure into an error notice instead of a crash.
`submit` never writes the query parameter, so the encrypted state stays at its
terminal value on every path.  `append_result` is the behaviour of the
external store on this call. -/
def submit (sheet_ok : Bool) (append_result : Except String Unit)
    (timestamp user_id saved_answers_str : String) (survey_indices : List Int) : SubmitEffect :=
  if sheet_ok then
    match append_result with
    | Except.ok _ =>
        ⟨some (buildRow timestamp user_id saved_answers_str survey_indices), true, false, none⟩
    | Except.error _ => ⟨none, false, true, none⟩
  else ⟨none, false, false, none⟩

/-- The terminal branch (run.py lines 310-318): the submit form — hence the
possibility to retry — is rendered exactly when the session `submitted` flag
is not set. -/
def terminalShowsForm (submitted : Bool) : Bool := !submitted

/-- The plan pipeline of one request: decoded state (or absence) through the
initialization block, then the plan derived from the resulting `user_id`. -/
def modulePlan {σ : Type} (g : RandGen σ) (decoded : Option JsonValue) (fresh_uid : String)
    (raw_data : List Slot) : Option (List Int × List (Option Variant)) :=
  (initVars decoded fresh_uid).map (fun mv => computePlan g mv.user_id raw_data)

/-- A concrete well-formed generator used to exercise the assignment engine on
explicit inputs. -/
def gTest : RandGen Nat :=
  ⟨fun s => s.length, fun st n => (st % n, st + 1)⟩

theorem getq_lt {α : Type} :
    ∀ (l : List α) (j : Nat) (a : α), l[j]? = some a → j < l.length
  | [], _, _, h => by simp at h
  | _ :: _, 0, _, _ => Nat.succ_pos _
  | _ :: l, j + 1, a, h =>
      Nat.succ_lt_succ (getq_lt l j a (by simpa using h))

theorem getq_map {α β : Type} (f : α → β) :
    ∀ (l : List α) (j : Nat), (l.map f)[j]? = (l[j]?).map f
  | [], _ => by simp
  | _ :: _, 0 => by simp
  | _ :: l, j + 1 => by
      simp only [List.map_cons, List.getElem?_cons_succ]
      exact getq_map f l j

theorem getq_append_left {α : Type} :
    ∀ (l1 l2 : List α) (j : Nat), j < l1.length → (l1 ++ l2)[j]? = l1[j]?
  | [], _, _, h => by simp at h
  | _ :: _, _, 0, _ => by simp
  | _ :: l1, l2, j + 1, h => by
      simp only [List.cons_append, List.getElem?_cons_succ]
      exact getq_append_left l1 l2 j (Nat.lt_of_succ_lt_succ h)

theorem getq_append_right {α : Type} :
    ∀ (l1 l2 : List α) (j : Nat), l1.length ≤ j → (l1 ++ l2)[j]? = l2[j - l1.length]?
  | [], _, _, _ => by simp
  | _ :: _, _, 0, h => by simp at h
  | _ :: l1, l2, j + 1, h => by
      simp only [List.cons_append, List.getElem?_cons_succ, List.length_cons,
        Nat.succ_sub_succ]
      exact getq_append_right l1 l2 j (Nat.le_of_succ_le_succ h)

theorem getq_replicate {α : Type} (a : α) :
    ∀ (n j : Nat), j < n → (List.replicate n a)[j]? = some a
  | 0, _, h => by omega
  | n + 1, 0, _ => by simp [List.replicate]
  | n + 1, j + 1, h => by
      simp only [List.replicate, List.getElem?_cons_succ]
      exact getq_replicate a n j (Nat.lt_of_succ_lt_succ h)

theorem zipWith_getq {α β γ : Type} (f : α → β → γ) :
    ∀ (l1 : List α) (l2 : List β) (j : Nat) (a : α) (b : β),
      l1[j]? = some a → l2[j]? = some b → (List.zipWith f l1 l2)[j]? = some (f a b)
  | [], _, _, _, _, h1, _ => by simp at h1
  | _ :: _, [], _, _, _, _, h2 => by simp at h2
  | x :: l1, y :: l2, 0, a, b, h1, h2 => by
      simp only [List.getElem?_cons_zero, Option.some.injEq] at h1 h2
      simp [h1, h2]
  | x :: l1, y :: l2, j + 1, a, b, h1, h2 => by
      simp only [List.getElem?_cons_succ] at h1 h2
      simpa using zipWith_getq f l1 l2 j a b h1 h2

theorem getq_getD {α : Type} (d : α) :
    ∀ (l : List α) (r : Nat), r < l.length → l[r]? = some (l.getD r d)
  | [], _, h => by simp at h
  | _ :: _, 0, _ => by simp [List.getD]
  | _ :: l, r + 1, h => by
      simp only [List.getElem?_cons_succ, List.getD_cons_succ]
      exact getq_getD d l r (Nat.lt_of_succ_lt_succ h)

theorem planLoop_spec {σ : Type} (g : RandGen σ) (hg : WellFormedGen g) (slots : List Slot) :
    ∀ st : σ, PlanSpec g st slots (planLoop g st slots).1 (planLoop g st slots).2 := by
  induction slots with
  | nil => intro st; exact PlanSpec.nil st
  | cons slot rest ih =>
    intro st
    cases slot with
    | nil =>
      have hdef : planLoop g st ([] :: rest) =
          ((-1 : Int) :: (planLoop g st rest).1, none :: (planLoop g st rest).2) := rfl
      rw [hdef]
      exact PlanSpec.empty st [] rest _ _ rfl (ih st)
    | cons p ps =>
      have hdef : planLoop g st ((p :: ps) :: rest) =
          (((g.randrange st (p :: ps).length).1 : Int) ::
              (planLoop g (g.randrange st (p :: ps).length).2 rest).1,
            some ((p :: ps).getD (g.randrange st (p :: ps).length).1 ("", "", "")) ::
              (planLoop g (g.randrange st (p :: ps).length).2 rest).2) := rfl
      rw [hdef]
      have hlt : (g.randrange st (p :: ps).length).1 < (p :: ps).length :=
        hg st (p :: ps).length (Nat.succ_pos _)
      exact PlanSpec.draw st (p :: ps) rest (g.randrange st (p :: ps).length).1
        (g.randrange st (p :: ps).length).2 ((p :: ps).getD (g.randrange st (p :: ps).length).1 ("", "", ""))
        _ _ (by simp) rfl (getq_getD ("", "", "") (p :: ps) _ hlt) (ih _)

/-- C3: for every valid session state (a dict with `uid`, `step` and `ans`
fields), decoding the encoding of the state returns the state itself:
`decrypt_state (encrypt_state s) = s`. -/
theorem c3_roundtrip (uid : String) (step : Int) (ans : String) :
    decrypt_state (encrypt_state (mkStateJson uid step ans)) =
      some (mkStateJson uid step ans) := rfl

/-- C5: two requests with the same `user_id` but different `step` and `ans`
fields (and even different freshly drawn ids, which are unused on this path)
derive the identical `(survey_indices, survey_plan)` pair: the plan depends
only on the user id and the static pool, never on the history. -/
theorem c5_plan_independent_of_history {σ : Type} (g : RandGen σ) (uid : String)
    (step1 step2 : Int) (ans1 ans2 : String) (fresh1 fresh2 : String) (raw_data : List Slot) :
    modulePlan g (some (mkStateJson uid step1 ans1)) fresh1 raw_data =
      modulePlan g (some (mkStateJson uid step2 ans2)) fresh2 raw_data := by
  simp [modulePlan, initVars_mkState]

/-- C8: `decrypt_state` is total and yields `none` on every decode failure —
a string that is not an authentic token under the process key (malformed,
tampered, or encrypted under another key) and an authentic token whose
decrypted payload is not valid JSON — and the initialization block treats that
result exactly like an absent token: a fresh Intro state
`{uid: fresh, step: -1, ans: ""}` whose id is the newly generated one, never
anything recovered from the failed decode. -/
theorem c8_decode_failure_fresh_session (fresh : String) :
    decrypt_state Token.malformed = none ∧
    decrypt_state (Token.enc Payload.notJson) = none ∧
    processOpt (some Token.malformed) fresh = some ⟨fresh, -1, ""⟩ ∧
    processOpt (some (Token.enc Payload.notJson)) fresh = some ⟨fresh, -1, ""⟩ ∧
    processOpt none fresh = some ⟨fresh, -1, ""⟩ :=
  ⟨rfl, rfl, rfl, rfl, rfl⟩

/-- C10: a token that decrypts and JSON-parses successfully but to a falsy
value is handled identically to an absent token, because the initialization
block only tests the decoded state for truthiness: the result is a fresh
Intro state with the newly generated id. -/
theorem c10_falsy_state_fresh_session (v : JsonValue) (fresh : String)
    (hv : pyTruthy v = false) :
    processOpt (some (Token.enc (Payload.json v))) fresh = processOpt none fresh ∧
    processOpt (some (Token.enc (Payload.json v))) fresh = some ⟨fresh, -1, ""⟩ := by
  have h1 : processOpt (some (Token.enc (Payload.json v))) fresh = some ⟨fresh, -1, ""⟩ := by
    simp [processOpt, decrypt_state, cipher_decrypt, json_loads, initVars, hv]
  exact ⟨by rw [h1]; rfl, h1⟩

theorem c10_falsy_state_fresh_session_witness :
    processOpt (some (Token.enc (Payload.json (JsonValue.obj [])))) "f" = processOpt none "f" ∧
    processOpt (some (Token.enc (Payload.json (JsonValue.obj [])))) "f" =
      some ⟨"f", -1, ""⟩ :=
  c10_falsy_state_fresh_session (JsonValue.obj []) "f" rfl

/-- C2 as stated is false: a decoded state whose `step` exceeds
`TOTAL_QUESTIONS` (here 100, with an `ans` whose length also mismatches
`step`) is not discarded — the initialization block keeps the token's own
`uid`, `step` and `ans` verbatim instead of restarting at Intro with the
fresh id. -/
theorem c2_counterexample :
    initVars (some (mkStateJson "ab" 100 "X")) "fresh" = some ⟨"ab", 100, "X"⟩ ∧
    initVars (some (mkStateJson "ab" 100 "X")) "fresh" ≠ some ⟨"fresh", -1, ""⟩ := by
  refine ⟨rfl, ?_⟩
  decide

/-- C2 amended: the flow performs no validation of decoded state at all — any
successfully decoded `{uid, step, ans}` dict is used verbatim (even when
`step > TOTAL_QUESTIONS` or `len(ans) ≠ step`), the token's `uid` is kept
rather than a fresh one generated, and a state with
`step ≥ TOTAL_QUESTIONS` is rendered as the Terminal screen, not as Intro. -/
theorem c2_amended_no_validation (uid ans fresh : String) (step : Int)
    (plan : List (Option Variant)) (hstep : (TOTAL_QUESTIONS : Int) ≤ step) :
    initVars (some (mkStateJson uid step ans)) fresh = some ⟨uid, step, ans⟩ ∧
    renderStep ⟨uid, step, ans⟩ plan = some RenderOutcome.terminal := by
  refine ⟨initVars_mkState uid step ans fresh, ?_⟩
  unfold renderStep
  rw [if_neg (not_lt.mpr hstep)]

theorem c2_amended_no_validation_witness :
    initVars (some (mkStateJson "ab" 100 "X")) "fresh" = some ⟨"ab", 100, "X"⟩ ∧
    renderStep ⟨"ab", 100, "X"⟩ [] = some RenderOutcome.terminal :=
  c2_amended_no_validation "ab" "X" "fresh" 100 [] (by decide)

/-- C9: when the append to the external store fails, `submit` shows the
failure to the user instead of crashing (the `except` branch), does not set
the `submitted` session flag, does not touch the encrypted token — so the
state stays Terminal — and the terminal screen consequently still renders the
submit form, allowing a retry. -/
theorem c9_submit_failure_recoverable (e timestamp user_id saved_answers_str : String)
    (survey_indices : List Int) :
    (submit true (Except.error e) timestamp user_id saved_answers_str survey_indices).submitted_flag
        = false ∧
    (submit true (Except.error e) timestamp user_id saved_answers_str survey_indices).error_shown
        = true ∧
    (submit true (Except.error e) timestamp user_id saved_answers_str survey_indices).token_update
        = none ∧
    (submit true (Except.error e) timestamp user_id saved_answers_str survey_indices).appended
        = none ∧
    terminalShowsForm
        (submit true (Except.error e) timestamp user_id saved_answers_str
          survey_indices).submitted_flag = true :=
  ⟨rfl, rfl, rfl, rfl, rfl⟩

/-- C4: for any well-formed generator, the plan computation seeds the
generator from `user_id` alone and then satisfies the specification's
characterization over the first `min(len(pool), TOTAL_QUESTIONS)` slots in
order: each non-empty slot consumes exactly one `randrange(len(slot))` draw
(in `[0, len(slot))`) selecting the variant at the drawn index, each empty
slot consumes no draw and records index `-1` with variant `null`, and — the
computation being a pure function of `(user_id, pool)` — identical inputs
reproduce the identical output sequences. -/
theorem c4_plan_deterministic_assignment {σ : Type} (g : RandGen σ) (hg : WellFormedGen g)
    (user_id : String) (raw_data : List Slot) :
    PlanSpec g (g.seed user_id) (raw_data.take TOTAL_QUESTIONS)
      (computePlan g user_id raw_data).1 (computePlan g user_id raw_data).2 :=
  planLoop_spec g hg (raw_data.take TOTAL_QUESTIONS) (g.seed user_id)

theorem c4_plan_deterministic_assignment_witness :
    PlanSpec gTest (gTest.seed "ab")
      (([[("g", "a", "b"), ("h", "c", "d")], []] : List Slot).take TOTAL_QUESTIONS)
      (computePlan gTest "ab" [[("g", "a", "b"), ("h", "c", "d")], []]).1
      (computePlan gTest "ab" [[("g", "a", "b"), ("h", "c", "d")], []]).2 :=
  c4_plan_deterministic_assignment gTest (fun st _ h => Nat.mod_lt st h) "ab"
    [[("g", "a", "b"), ("h", "c", "d")], []]

/-- C7: when the derived plan has no variant for the current question index
`i` (a genuine in-range question, `0 ≤ i < TOTAL_QUESTIONS`), the question
branch fires the synthetic choice `"N"` before any choice UI is built, and
the target state is exactly `{uid, step: i+1, ans ++ "N"}`; since the
dispatch is a function of the decoded state and the plan, re-decoding the
same token always yields this same single-step target — never a double
skip. -/
theorem c7_autoskip_idempotent (u a : String) (i : Int) (plan : List (Option Variant))
    (h0 : 0 ≤ i) (hlt : i < (TOTAL_QUESTIONS : Int)) (hslot : plan[i.toNat]? = some none) :
    renderStep ⟨u, i, a⟩ plan =
      some (RenderOutcome.autoAdvance ⟨u, i + 1, a.push 'N'⟩) := by
  have hp : pyGet plan i = some none := by
    unfold pyGet
    rw [if_pos h0, hslot]
  unfold renderStep
  rw [if_pos hlt, hp]
  rfl

theorem c7_autoskip_idempotent_witness :
    renderStep ⟨"u", 0, ""⟩ [none, some ("g", "a", "b")] =
      some (RenderOutcome.autoAdvance ⟨"u", 1, "N"⟩) :=
  c7_autoskip_idempotent "u" "" 0 [none, some ("g", "a", "b")] (by decide) (by decide) rfl

/-- A concrete derived plan: 36 answered slots and an empty last slot. -/
def plan0 : List (Option Variant) :=
  List.replicate 36 (some ("g", "a", "b")) ++ [none]

/-- C6 fails on the code: because line 277 is an `if` (not an `elif`), the
question branch also runs on the Intro state `step = -1`, where
`survey_plan[current_step]` is Python negative indexing into the last slot.
With the last slot empty, the auto-skip fires `next_step("N")` directly from
Intro, so the state `{uid, step: 0, ans: "N"}` is reachable from a fresh
session — a state with `step ≥ 0` whose answer string has length 1 ≠ 0,
violating the claimed invariant `len(ans) == step`. -/
theorem c6_invariant_violated_from_intro :
    Transition plan0 ⟨"u", -1, ""⟩ ⟨"u", 0, "N"⟩ ∧
    Reachable plan0 ⟨"u", -1, ""⟩ ⟨"u", 0, "N"⟩ ∧
    (0 : Int) ≤ (SessionState.mk "u" 0 "N").step ∧
    ((SessionState.mk "u" 0 "N").ans.length : Int) ≠ (SessionState.mk "u" 0 "N").step := by
  have hr : renderStep ⟨"u", -1, ""⟩ plan0 =
      some (RenderOutcome.autoAdvance ⟨"u", 0, "N"⟩) := by decide
  have ht : Transition plan0 ⟨"u", -1, ""⟩ ⟨"u", 0, "N"⟩ :=
    Transition.autoskip _ _ hr
  exact ⟨ht, Relation.ReflTransGen.single ht, by decide, by decide⟩

/-- C1 as stated is false: `submit` pads the short answer list with the empty
string `""`, not with the no-data code `"N"` — with answers `"AB"` the third
persisted per-question entry is `"_2"`, not `"N_2"`. -/
theorem c1_counterexample :
    ((buildRow "t" "u" "AB" ((List.range TOTAL_QUESTIONS).map Int.ofNat)).drop 2)[2]? =
      some "_2" ∧ ("_2" : String) ≠ "N_2" := by
  refine ⟨?_, by decide⟩
  decide

/-- C1 amended: when the terminal state is reached with fewer than
`TOTAL_QUESTIONS` answers and the derived index list has the full
`TOTAL_QUESTIONS` entries, the persisted record holds exactly
`TOTAL_QUESTIONS` per-question entries, each answered position `j` persisted
as `"<code>_<variantIndex>"`, and each unanswered tail position padded with
the empty string — persisted as `"_<variantIndex>"` — rather than with the
no-data code `"N"`. -/
theorem c1_padding_amended (timestamp user_id saved_answers_str : String)
    (survey_indices : List Int)
    (hidx : survey_indices.length = TOTAL_QUESTIONS)
    (hans : saved_answers_str.length < TOTAL_QUESTIONS) :
    ((buildRow timestamp user_id saved_answers_str survey_indices).drop 2).length =
        TOTAL_QUESTIONS ∧
    (∀ (j : Nat) (c : Char) (i : Int),
      saved_answers_str.toList[j]? = some c → survey_indices[j]? = some i →
      ((buildRow timestamp user_id saved_answers_str survey_indices).drop 2)[j]? =
        some (String.singleton c ++ "_" ++ toString i)) ∧
    (∀ (j : Nat) (i : Int),
      saved_answers_str.length ≤ j → survey_indices[j]? = some i →
      ((buildRow timestamp user_id saved_answers_str survey_indices).drop 2)[j]? =
        some ("_" ++ toString i)) := by
  have hA : (saved_answers_str.toList.map String.singleton).length =
      saved_answers_str.length := by
    rw [List.length_map]
    rfl
  have hdrop : (buildRow timestamp user_id saved_answers_str survey_indices).drop 2 =
      List.zipWith (fun answer idx => answer ++ "_" ++ toString idx)
        (padAnswers saved_answers_str) survey_indices := rfl
  have hpad : padAnswers saved_answers_str =
      saved_answers_str.toList.map String.singleton ++
        List.replicate (TOTAL_QUESTIONS - saved_answers_str.length) "" := by
    unfold padAnswers
    rw [hA, if_pos hans]
  have hpadlen : (padAnswers saved_answers_str).length = TOTAL_QUESTIONS := by
    rw [hpad, List.length_append, List.length_map, List.length_replicate]
    have : saved_answers_str.toList.length = saved_answers_str.length := rfl
    omega
  refine ⟨?_, ?_, ?_⟩
  · rw [hdrop, List.length_zipWith, hpadlen, hidx]
    simp
  · intro j c i hc hi
    have hj : j < saved_answers_str.length := getq_lt _ j c hc
    have hAj : (saved_answers_str.toList.map String.singleton)[j]? =
        some (String.singleton c) := by
      rw [getq_map, hc]
      rfl
    have hpadj : (padAnswers saved_answers_str)[j]? = some (String.singleton c) := by
      rw [hpad, getq_append_left _ _ j (by rw [hA]; exact hj)]
      exact hAj
    rw [hdrop]
    exact zipWith_getq _ _ _ j _ _ hpadj hi
  · intro j i hge hi
    have hj37 : j < TOTAL_QUESTIONS := by
      have := getq_lt _ j i hi
      omega
    have hpadj : (padAnswers saved_answers_str)[j]? = some "" := by
      rw [hpad, getq_append_right _ _ j (by rw [hA]; exact hge), hA]
      exact getq_replicate "" _ _ (by omega)
    rw [hdrop]
    have hz := zipWith_getq (fun answer idx => answer ++ "_" ++ toString idx)
      _ _ j _ _ hpadj hi
    simpa using hz

theorem c1_padding_amended_witness :
    ((buildRow "t" "u" "AB" ((List.range TOTAL_QUESTIONS).map Int.ofNat)).drop 2).length =
        TOTAL_QUESTIONS ∧
    ((buildRow "t" "u" "AB" ((List.range TOTAL_QUESTIONS).map Int.ofNat)).drop 2)[1]? =
        some (String.singleton 'B' ++ "_" ++ toString (1 : Int)) ∧
    ((buildRow "t" "u" "AB" ((List.range TOTAL_QUESTIONS).map Int.ofNat)).drop 2)[2]? =
        some ("_" ++ toString (2 : Int)) := by
  have h := c1_padding_amended "t" "u" "AB" ((List.range TOTAL_QUESTIONS).map Int.ofNat)
    (by decide) (by decide)
  exact ⟨h.1, h.2.1 1 'B' 1 (by decide) (by decide), h.2.2 2 2 (by decide) (by decide)⟩

end EQSurvey
